import Mathlib

/-!
# Verification of the compose-environments coordinate / placement / serialization core

Shallow embedding of the TypeScript sources:
  * `src/io/exportScene.ts`   (frame conversion A→B, export preconditions, bundle build)
  * `src/io/importScene.ts`   (frame conversion B→A, manifest dispatch, legacy fallback,
                               initial-conditions loading)
  * `src/hooks/useScene.ts`   (randomized placement pass, condition history, local size)

JavaScript numbers are modelled as real numbers (the specification speaks of
"finite reals" throughout).  Text documents are modelled structurally: the
numeric rendering of the `.usda` text is not the subject of any claim.
-/

namespace ComposeEnv

/-- A 3-component vector of reals (models a THREE.Vector3 / a JS `{x, y, z}`). -/
structure Vec3 where
  x : ℝ
  y : ℝ
  z : ℝ


/-- A quaternion `(x, y, z, w)` (models THREE.Quaternion component order). -/
structure Quat where
  x : ℝ
  y : ℝ
  z : ℝ
  w : ℝ


/-- Euler angles in radians, THREE.js default order (models `object.rotation`). -/
structure Euler where
  x : ℝ
  y : ℝ
  z : ℝ


/-- Position conversion, live (Y-up) frame to export (Z-up) frame.
From `src/io/exportScene.ts` line 66:
`double3 xformOp:translate = (pos.x, -pos.z, pos.y)`. -/
def posLiveToExport (v : Vec3) : Vec3 :=
  ⟨v.x, -v.z, v.y⟩

/-- Position conversion, export (Z-up) frame back to live (Y-up) frame.
From `src/io/importScene.ts` lines 203-207:
`asset.object.position.set(transform.translate.x, transform.translate.z, -transform.translate.y)`. -/
def posExportToLive (v : Vec3) : Vec3 :=
  ⟨v.x, v.z, -v.y⟩

/-- An axis-aligned box, `min`/`max` corner (models THREE.Box3). -/
structure Box3 where
  lo : Vec3
  hi : Vec3

/-- A 3×3 matrix with explicit entries (row `i`, column `j` is `aij`). -/
structure Mat3 where
  a11 : ℝ
  a12 : ℝ
  a13 : ℝ
  a21 : ℝ
  a22 : ℝ
  a23 : ℝ
  a31 : ℝ
  a32 : ℝ
  a33 : ℝ

def Mat3.mul (m n : Mat3) : Mat3 :=
  ⟨m.a11 * n.a11 + m.a12 * n.a21 + m.a13 * n.a31,
   m.a11 * n.a12 + m.a12 * n.a22 + m.a13 * n.a32,
   m.a11 * n.a13 + m.a12 * n.a23 + m.a13 * n.a33,
   m.a21 * n.a11 + m.a22 * n.a21 + m.a23 * n.a31,
   m.a21 * n.a12 + m.a22 * n.a22 + m.a23 * n.a32,
   m.a21 * n.a13 + m.a22 * n.a23 + m.a23 * n.a33,
   m.a31 * n.a11 + m.a32 * n.a21 + m.a33 * n.a31,
   m.a31 * n.a12 + m.a32 * n.a22 + m.a33 * n.a32,
   m.a31 * n.a13 + m.a32 * n.a23 + m.a33 * n.a33⟩

def Mat3.mulVec (m : Mat3) (v : Vec3) : Vec3 :=
  ⟨m.a11 * v.x + m.a12 * v.y + m.a13 * v.z,
   m.a21 * v.x + m.a22 * v.y + m.a23 * v.z,
   m.a31 * v.x + m.a32 * v.y + m.a33 * v.z⟩

/-- Entrywise absolute value of a matrix. -/
def Mat3.absEntries (m : Mat3) : Mat3 :=
  ⟨|m.a11|, |m.a12|, |m.a13|, |m.a21|, |m.a22|, |m.a23|, |m.a31|, |m.a32|, |m.a33|⟩

noncomputable def rotXMat (t : ℝ) : Mat3 :=
  ⟨1, 0, 0, 0, Real.cos t, -Real.sin t, 0, Real.sin t, Real.cos t⟩

noncomputable def rotYMat (t : ℝ) : Mat3 :=
  ⟨Real.cos t, 0, Real.sin t, 0, 1, 0, -Real.sin t, 0, Real.cos t⟩

noncomputable def rotZMat (t : ℝ) : Mat3 :=
  ⟨Real.cos t, -Real.sin t, 0, Real.sin t, Real.cos t, 0, 0, 0, 1⟩

/-- Rotation matrix of a THREE.Euler in the default `XYZ` order. -/
noncomputable def eulerMat (e : Euler) : Mat3 :=
  (rotXMat e.x).mul ((rotYMat e.y).mul (rotZMat e.z))

def Vec3.add (v w : Vec3) : Vec3 := ⟨v.x + w.x, v.y + w.y, v.z + w.z⟩

def Vec3.sub (v w : Vec3) : Vec3 := ⟨v.x - w.x, v.y - w.y, v.z - w.z⟩

/-- Componentwise product (models how a THREE scale acts on local coordinates). -/
def Vec3.hadamard (v w : Vec3) : Vec3 := ⟨v.x * w.x, v.y * w.y, v.z * w.z⟩

def Vec3.absVec (v : Vec3) : Vec3 := ⟨|v.x|, |v.y|, |v.z|⟩

def Vec3.smul (c : ℝ) (v : Vec3) : Vec3 := ⟨c * v.x, c * v.y, c * v.z⟩

def Vec3.zero : Vec3 := ⟨0, 0, 0⟩

def Euler.zero : Euler := ⟨0, 0, 0⟩

/-- The geometry backing an asset, modelled by its local axis-aligned bounding
box at identity transform: `center` of the box and its `size` (full extents).
The geometry payload itself is opaque to this core (external loader, spec §6);
`THREE.Box3.setFromObject` of the external renderer is modelled on this box. -/
structure Geom where
  center : Vec3
  size : Vec3

/-- Model of `new THREE.Box3().setFromObject(asset.object)`: the axis-aligned
bounding box in world space of the local box `g`, scaled componentwise by
`s`, rotated by the Euler angles `e` and translated by `pos`.  The box of a
rotated box has center `R·(s⊙c) + pos` and half-extents `|R|·(|s⊙size|/2)`. -/
noncomputable def setFromObject (g : Geom) (s : Vec3) (pos : Vec3) (e : Euler) : Box3 :=
  let R := eulerMat e
  let c := Vec3.add pos (R.mulVec (s.hadamard g.center))
  let h := (R.absEntries).mulVec (Vec3.smul (1 / 2) (s.hadamard g.size).absVec)
  ⟨c.sub h, c.add h⟩

/-- `box.getSize(target)`: the full extents of a box. -/
def boxSize (b : Box3) : Vec3 := b.hi.sub b.lo

/-- `box1.intersectsBox(box2)` from THREE.Box3: the boxes intersect unless they
are strictly separated along some axis (touching boxes intersect). -/
def intersectsBox (a b : Box3) : Prop :=
  ¬(b.hi.x < a.lo.x ∨ b.lo.x > a.hi.x ∨
    b.hi.y < a.lo.y ∨ b.lo.y > a.hi.y ∨
    b.hi.z < a.lo.z ∨ b.lo.z > a.hi.z)

/-- `checkCollision` from `src/hooks/useScene.ts` lines 310-312:
`box1.intersectsBox(box2)`. -/
def checkCollision (box1 box2 : Box3) : Prop := intersectsBox box1 box2

/-- The spawn volume, six scalars in the export (Z-up) convention
(`SpawnBounds` from `src/hooks/useScene.ts`). -/
structure SpawnBounds where
  minX : ℝ
  maxX : ℝ
  minY : ℝ
  maxY : ℝ
  minZ : ℝ
  maxZ : ℝ

/-- `isBoxWithinSpawnBounds` from `src/hooks/useScene.ts` lines 334-349:
converts the Z-up spawn bounds to the live Y-up frame
(`minY := bounds.minZ`, `maxY := bounds.maxZ`, `minZ := -bounds.maxY`,
`maxZ := -bounds.minY`) and requires the box to lie inside componentwise. -/
def isBoxWithinSpawnBounds (sb : SpawnBounds) (box : Box3) : Prop :=
  box.lo.x ≥ sb.minX ∧ box.hi.x ≤ sb.maxX ∧
  box.lo.y ≥ sb.minZ ∧ box.hi.y ≤ sb.maxZ ∧
  box.lo.z ≥ -sb.maxY ∧ box.hi.z ≤ -sb.minY

/-! ## Placement engine (`randomizeNonStaticAssets`, `src/hooks/useScene.ts` 351-445)

The `Math.random()` source is modelled as a stream `rng : ℕ → ℝ` of draws,
consumed left to right exactly as the code consumes consecutive calls.
Classical decidability is used for the branch conditions on real comparisons. -/

open Classical

/-- An asset as seen by the placement pass: its backing geometry (local box)
and its current scale (placement rewrites position and rotation but not scale). -/
structure PlaceAsset where
  geom : Geom
  scale : Vec3

/-- The value `getAssetLocalSize` returns for an asset (the size of its world
box with position and rotation reset to zero; scale is not reset). -/
def localSize (a : PlaceAsset) : Vec3 := (a.scale.hadamard a.geom.size).absVec

/-- `Math.max(assetSize.x, assetSize.z) / 2` — horizontal half-extent used to
shrink the volume, since the pass only rotates about the vertical axis. -/
noncomputable def maxHorizontalExtent (a : PlaceAsset) : ℝ :=
  max (localSize a).x (localSize a).z / 2

/-- `assetSize.y / 2`. -/
noncomputable def verticalExtent (a : PlaceAsset) : ℝ := (localSize a).y / 2

noncomputable def validMinX (sb : SpawnBounds) (a : PlaceAsset) : ℝ :=
  sb.minX + maxHorizontalExtent a

noncomputable def validMaxX (sb : SpawnBounds) (a : PlaceAsset) : ℝ :=
  sb.maxX - maxHorizontalExtent a

noncomputable def validMinY (sb : SpawnBounds) (a : PlaceAsset) : ℝ :=
  sb.minY + maxHorizontalExtent a

noncomputable def validMaxY (sb : SpawnBounds) (a : PlaceAsset) : ℝ :=
  sb.maxY - maxHorizontalExtent a

noncomputable def validMinZ (sb : SpawnBounds) (a : PlaceAsset) : ℝ :=
  sb.minZ + verticalExtent a

noncomputable def validMaxZ (sb : SpawnBounds) (a : PlaceAsset) : ℝ :=
  sb.maxZ - verticalExtent a

/-- `canFit` from `src/hooks/useScene.ts` line 389:
`validMinX < validMaxX && validMinY < validMaxY && validMinZ < validMaxZ`. -/
noncomputable def canFit (sb : SpawnBounds) (a : PlaceAsset) : Prop :=
  validMinX sb a < validMaxX sb a ∧ validMinY sb a < validMaxY sb a ∧
    validMinZ sb a < validMaxZ sb a

/-- Center-of-volume fallback candidate (`useScene.ts` lines 400-404),
already converted from Z-up to the live Y-up frame. -/
noncomputable def centerPos (sb : SpawnBounds) : Vec3 :=
  ⟨(sb.minX + sb.maxX) / 2, (sb.minZ + sb.maxZ) / 2, -((sb.minY + sb.maxY) / 2)⟩

/-- One attempted transform: live-frame position, yaw angle, and the world
bounding box the code computes for it via `getAssetBoundingBox`. -/
structure Attempt where
  pos : Vec3
  rotY : ℝ
  box : Box3

/-- One attempt of the placement loop starting at draw index `i` of the
stream.  When the asset `canFit`, three draws pick a position inside the
shrunken range (Z-up converted to Y-up on the fly: lines 396-398) and a fourth
the yaw; otherwise the position is the volume center and a single draw picks
the yaw (lines 400-407). -/
noncomputable def attemptAt (sb : SpawnBounds) (a : PlaceAsset) (rng : ℕ → ℝ) (i : ℕ) :
    Attempt :=
  if canFit sb a then
    let x := validMinX sb a + rng i * (validMaxX sb a - validMinX sb a)
    let y := validMinZ sb a + rng (i + 1) * (validMaxZ sb a - validMinZ sb a)
    let z := -(validMinY sb a + rng (i + 2) * (validMaxY sb a - validMinY sb a))
    let t := rng (i + 3) * (2 * Real.pi)
    ⟨⟨x, y, z⟩, t, setFromObject a.geom a.scale ⟨x, y, z⟩ ⟨0, t, 0⟩⟩
  else
    let p := centerPos sb
    let t := rng i * (2 * Real.pi)
    ⟨p, t, setFromObject a.geom a.scale p ⟨0, t, 0⟩⟩

/-- Number of `Math.random()` draws one attempt consumes. -/
noncomputable def draws (sb : SpawnBounds) (a : PlaceAsset) : ℕ :=
  if canFit sb a then 4 else 1

/-- `hasCollision`: the candidate box intersects some already recorded box. -/
def hasCollision (placed : List Box3) (box : Box3) : Prop :=
  ∃ pb ∈ placed, checkCollision box pb

/-- The acceptance condition of one attempt (`useScene.ts` lines 427-434):
either no collision and fully within the spawn bounds, or — when the asset
cannot fit — merely no collision. -/
noncomputable def acceptCond (placed : List Box3) (sb : SpawnBounds) (a : PlaceAsset)
    (t : Attempt) : Prop :=
  (¬hasCollision placed t.box ∧ isBoxWithinSpawnBounds sb t.box) ∨
    (¬canFit sb a ∧ ¬hasCollision placed t.box)

/-- Result of placing one asset: whether some attempt was accepted within the
retry budget, the transform the object ends the pass with (the accepted
attempt, or the last attempted one on budget exhaustion, lines 437-440), and
the index of the next unconsumed draw. -/
structure PlaceOutcome where
  placed : Bool
  att : Attempt
  nextIdx : ℕ

/-- The retry loop (`for attempt < maxAttempts && !placed`, lines 391-435);
the fuel argument counts the attempts remaining after the current one, so the
top-level call uses fuel `99` for the budget of 100 attempts.  On exhaustion
the last attempted transform is kept (`placed = false`). -/
noncomputable def placeLoop (sb : SpawnBounds) (a : PlaceAsset) (rng : ℕ → ℝ)
    (placed : List Box3) : ℕ → ℕ → PlaceOutcome
  | 0, i =>
      let t := attemptAt sb a rng i
      if acceptCond placed sb a t then ⟨true, t, i + draws sb a⟩
      else ⟨false, t, i + draws sb a⟩
  | n + 1, i =>
      let t := attemptAt sb a rng i
      if acceptCond placed sb a t then ⟨true, t, i + draws sb a⟩
      else placeLoop sb a rng placed n (i + draws sb a)

/-- `maxAttempts = 100` (`useScene.ts` line 369). -/
def maxAttempts : ℕ := 100

/-- Placing one asset with the full 100-attempt budget. -/
noncomputable def placeAsset (sb : SpawnBounds) (a : PlaceAsset) (rng : ℕ → ℝ)
    (placed : List Box3) (i : ℕ) : PlaceOutcome :=
  placeLoop sb a rng placed (maxAttempts - 1) i

/-- The pass over the movable assets in iteration order; each asset records
its final box (accepted or exhausted) for the collision checks of the
following ones (`placedBoxes`, lines 368, 428-439). -/
noncomputable def runPass (sb : SpawnBounds) (rng : ℕ → ℝ) :
    List PlaceAsset → ℕ → List Box3 → List PlaceOutcome
  | [], _, _ => []
  | a :: rest, i, placed =>
      let o := placeAsset sb a rng placed i
      o :: runPass sb rng rest o.nextIdx (placed ++ [o.att.box])


/-! ### Concrete scenes used to exercise the placement pass -/

/-- A unit-cube-ish geometry: local box of size `1/5` centered at the origin. -/
noncomputable def cGeomUnit : Geom := ⟨⟨0, 0, 0⟩, ⟨1 / 5, 1 / 5, 1 / 5⟩⟩

/-- The same local box but centered far from the object origin (a mesh whose
pivot is outside its geometry, as happens with loaded USD/GLTF payloads). -/
noncomputable def cGeomOffset : Geom := ⟨⟨10, 0, 0⟩, ⟨1 / 5, 1 / 5, 1 / 5⟩⟩

noncomputable def cAssetUnit : PlaceAsset := ⟨cGeomUnit, ⟨1, 1, 1⟩⟩

noncomputable def cAssetOffset : PlaceAsset := ⟨cGeomOffset, ⟨1, 1, 1⟩⟩

/-- A roomy spawn volume, `[0,1]` on every export axis. -/
noncomputable def cB : SpawnBounds := ⟨0, 1, 0, 1, 0, 1⟩

/-- A volume whose vertical extent exactly equals the asset height, so the
reduced vertical range is zero-width (`min = max`). -/
noncomputable def cBFlat : SpawnBounds := ⟨0, 1, 0, 1, 0, 1 / 5⟩

/-- A random stream that always draws `0`. -/
noncomputable def cRngZero : ℕ → ℝ := fun _ => 0

/-- The box the budget-exhausted pass below ends with: far outside `cB`. -/
noncomputable def cBadBox : Box3 := ⟨⟨10, 0, -(1 / 5)⟩, ⟨51 / 5, 1 / 5, 0⟩⟩

/-! ### Accepted-placement evaluations (witness scenarios) -/

/-- A random stream drawing `0` for the first object and `1/2` afterwards. -/
noncomputable def cRngSplit : ℕ → ℝ := fun n => if n < 4 then 0 else 1 / 2

/-- The box the first witness object is accepted with. -/
noncomputable def cGoodBox : Box3 := ⟨⟨0, 0, -(1 / 5)⟩, ⟨1 / 5, 1 / 5, 0⟩⟩

/-- The box the second witness object is accepted with. -/
noncomputable def cGoodBox2 : Box3 := ⟨⟨2 / 5, 2 / 5, -(3 / 5)⟩, ⟨3 / 5, 3 / 5, -(2 / 5)⟩⟩

/-! ## Scene objects, local-size measurement and condition history
(`useScene.ts` 314-332 and 447-473) -/

/-- The mutable transform state of a THREE.Object3D as far as this core
touches it, together with its backing geometry. -/
structure Object3D where
  position : Vec3
  rotation : Euler
  scale : Vec3
  geom : Geom

/-- `getAssetLocalSize` from `src/hooks/useScene.ts` lines 314-332, as a
state-passing function: save the current position and rotation, reset both to
zero, measure the bounding-box size, restore the saved values, and return the
size together with the object state after the call. -/
noncomputable def getAssetLocalSize (o : Object3D) : Vec3 × Object3D :=
  let savedPos := o.position
  let savedRot := o.rotation
  let o1 : Object3D := { o with position := ⟨0, 0, 0⟩, rotation := ⟨0, 0, 0⟩ }
  let size := boxSize (setFromObject o1.geom o1.scale o1.position o1.rotation)
  let o2 : Object3D := { o1 with position := savedPos, rotation := savedRot }
  (size, o2)

/-- An asset of the scene state held by `useSceneProvider` with the fields the
condition history touches (`LoadedAsset` flags plus the live transform). -/
structure SceneAsset where
  id : String
  excludeFromExport : Bool
  locked : Bool
  disableGravity : Bool
  position : Vec3
  quaternion : Quat

/-- A captured `(position, quaternion)` pair (`SavedPose`, `useScene.ts` 17-20). -/
structure SavedPose where
  position : Vec3
  quaternion : Quat

/-- One episode: a map from asset id to its captured pose, modelled as an
association list in insertion order (JS `Map` preserves insertion order). -/
structure SavedCondition where
  poses : List (String × SavedPose)

/-- The slice of the provider state the condition history operates on. -/
structure SceneModel where
  assets : List SceneAsset
  savedPoses : Option (List (String × SavedPose))
  savedConditions : List SavedCondition

/-- The movable assets: `!excludeFromExport && !disableGravity && !locked`
(`useScene.ts` lines 353 and 449). -/
def dynamicAssets (assets : List SceneAsset) : List SceneAsset :=
  assets.filter fun a => !a.excludeFromExport && !a.disableGravity && !a.locked

/-- The snapshot `acceptRandomization` builds: the current position and
quaternion of every movable asset, keyed by id, in iteration order. -/
def currentPoses (assets : List SceneAsset) : List (String × SavedPose) :=
  (dynamicAssets assets).map fun a => (a.id, ⟨a.position, a.quaternion⟩)

/-- `acceptRandomization` from `src/hooks/useScene.ts` lines 447-469 restricted
to the state it mutates: when some movable asset exists, append one snapshot of
the current poses to `savedConditions`; always clear `savedPoses`.  The
deferred re-randomization (`setTimeout(randomizeNonStaticAssets, 0)`) rewrites
object transforms, not the history, and is modelled by `runPass`. -/
def acceptRandomization (s : SceneModel) : SceneModel :=
  if (dynamicAssets s.assets).length > 0 then
    { s with
      savedConditions := s.savedConditions ++ [⟨currentPoses s.assets⟩]
      savedPoses := none }
  else { s with savedPoses := none }

/-- `clearSavedConditions` from `src/hooks/useScene.ts` lines 471-473. -/
def clearSavedConditions (s : SceneModel) : SceneModel :=
  { s with savedConditions := [] }

/-- A concrete movable asset (no flag set) at a non-trivial pose. -/
noncomputable def cSceneAssetW : SceneAsset :=
  ⟨"cube", false, false, false, ⟨1 / 10, 1 / 5, 3 / 10⟩, ⟨0, 0, 0, 1⟩⟩

/-- A concrete scene state with one prior saved condition. -/
noncomputable def cSceneW : SceneModel :=
  ⟨[cSceneAssetW], none,
   [⟨[("cube", ⟨⟨0, 0, 0⟩, ⟨0, 0, 0, 1⟩⟩)]⟩]⟩

/-! ## Bundle codec — export side (`src/io/exportScene.ts`)

Text documents are modelled structurally (blocks and fields rather than
rendered characters); the numeric text rendering is no claim's subject. -/

/-- `[A-Za-z0-9_]` (the character class of the sanitization regex). -/
def isUsdNameChar (c : Char) : Bool := c.isAlpha || c.isDigit || c == '_'

/-- `name.replace(/[^a-zA-Z0-9_]/g, "_")` from `exportScene.ts` line 49 and
`importScene.ts` lines 80 and 196. -/
def sanitizeName (s : String) : String :=
  s.map fun c => if isUsdNameChar c then c else '_'

/-- The whitespace class of JS `String.prototype.trim` (the characters that
matter here; the exotic Unicode space classes are omitted, no claim uses
them). -/
def isJsWhitespace (c : Char) : Bool :=
  c == ' ' || c == '\t' || c == '\n' || c == '\r' || c == '\x0b' || c == '\x0c'

/-- `instruction.trim() === ""`: every character is whitespace. -/
def trimIsEmpty (s : String) : Bool := s.toList.all isJsWhitespace

/-- An asset as the bundle codec sees it (the `LoadedAsset` interface of
`AssetLoader` plus the live transform of its `object`). -/
structure LoadedAsset where
  id : String
  name : String
  mainFile : String
  excludeFromExport : Bool
  locked : Bool
  disableGravity : Bool
  position : Vec3
  rotation : Euler
  scale : Vec3
  quaternion : Quat

/-- `asset.mainFile.split("/").pop() || asset.mainFile` (line 52). -/
def mainFileNameOf (mainFile : String) : String :=
  let last := ((mainFile.splitOn "/").getLast?).getD mainFile
  if last = "" then mainFile else last

noncomputable def radToDeg (r : ℝ) : ℝ := r * 180 / Real.pi

/-- One `def Xform` block of the description document, structurally
(`exportScene.ts` lines 60-72): sanitized identifier, payload reference
`assets/<name>/<mainFileName>`, export-frame translate `(x, -z, y)`,
export-frame Euler degrees `(rx, -rz, ry)`, permuted scale `(sx, sz, sy)`,
and the kinematic flag. -/
structure UsdBlockModel where
  usdName : String
  refFolder : String
  refFile : String
  translate : Vec3
  rotateXYZ : Vec3
  scale3 : Vec3
  kinematicEnabled : Bool

noncomputable def mkUsdBlock (a : LoadedAsset) : UsdBlockModel :=
  ⟨sanitizeName a.name, a.name, mainFileNameOf a.mainFile,
   posLiveToExport a.position,
   ⟨radToDeg a.rotation.x, -radToDeg a.rotation.z, radToDeg a.rotation.y⟩,
   ⟨a.scale.x, a.scale.z, a.scale.y⟩,
   a.disableGravity⟩

/-- Modelled from the spec: one entry of the `scene.json` manifest, shape
`version/assets` with id, name, mainFile, raw live-frame transform and the
static flag (spec §6); the current manifest-writing `exportScene` is not
under `src/`, only its earlier revision. -/
structure ManifestAsset where
  id : String
  name : String
  mainFile : String
  position : Vec3
  rotation : Euler
  scale : Vec3
  disableGravity : Bool

/-- Modelled from the spec: the `scene.json` manifest, `{version: 1, assets}`. -/
structure Manifest where
  version : ℕ
  assets : List ManifestAsset

/-- Modelled from the spec: the `initial_conditions.json` pose document —
an instruction string and one entry per episode mapping each sanitized
dynamic-object name to the 7-tuple `[x, y, z, qx, qy, qz, qw]` in export
frame (spec §4.4 and §6). -/
structure PoseDoc where
  instruction : String
  poses : List (List (String × List ℝ))

/-- The export-frame 7-tuple of a live pose: position `(x, -z, y)` and
quaternion vector part `(x, -z, y)` with `w` unchanged (the inverse of the
conversion in `importScene.ts` lines 93-99). -/
def poseTuple (p : Vec3) (q : Quat) : List ℝ :=
  [p.x, -p.z, p.y, q.x, -q.z, q.y, q.w]

/-- The movable (dynamic) assets: not export-excluded, gravity enabled, not
locked (spec glossary; same filter as `useScene.ts` line 353). -/
def dynamicLoaded (assets : List LoadedAsset) : List LoadedAsset :=
  assets.filter fun a => !a.excludeFromExport && !a.disableGravity && !a.locked

/-- One pose-document entry from one saved condition: each saved id resolved
to its asset's sanitized name with the pose converted to the export frame;
ids with no matching asset are dropped. -/
def poseEntryOfCondition (assets : List LoadedAsset) (c : SavedCondition) :
    List (String × List ℝ) :=
  c.poses.filterMap fun idp =>
    (assets.find? fun a => a.id == idp.1).map fun a =>
      (sanitizeName a.name, poseTuple idp.2.position idp.2.quaternion)

/-- The fallback entry: the current live pose of every dynamic asset. -/
def currentPoseEntry (assets : List LoadedAsset) : List (String × List ℝ) :=
  (dynamicLoaded assets).map fun a =>
    (sanitizeName a.name, poseTuple a.position a.quaternion)

/-- Modelled from the spec (§4.4): the pose document; with zero accepted
conditions the current live pose of each dynamic object is emitted as the
sole entry (fallback-to-current-state policy). -/
def mkPoseDoc (assets : List LoadedAsset) (conds : List SavedCondition)
    (instruction : String) : PoseDoc :=
  ⟨instruction,
   if conds.isEmpty then [currentPoseEntry assets]
   else conds.map (poseEntryOfCondition assets)⟩

/-- The bundle: description document blocks, manifest, pose document. -/
structure Bundle where
  usdaBlocks : List UsdBlockModel
  manifest : Manifest
  poseDoc : PoseDoc

/-- `exportScene`.  The repository's current `exportScene` takes
`(assets, savedConditions, instruction)` — see the call in
`src/components/Toolbar.tsx` line 71 — but only an earlier one-argument
revision is present under `src/io/exportScene.ts`.  The
`excludeFromExport` filter, the kinematic precondition with its message, and
the usda block build are embedded from that source (lines 9-72).  Modelled
from the spec: the instruction precondition (§4.4/§7 — export fails with a
descriptive error on an empty or whitespace-only instruction), the
`scene.json` manifest (§6) and the `initial_conditions.json` pose document
(§4.4, §6), which the present revision does not yet write.  A returned
`Except.error` models the failed export: a descriptive message and no
archive. -/
noncomputable def exportScene (assets : List LoadedAsset)
    (savedConditions : List SavedCondition) (instruction : String) :
    Except String Bundle :=
  let exportableAssets := assets.filter fun a => !a.excludeFromExport
  if !exportableAssets.any (fun a => a.disableGravity) then
    .error "At least one asset must have gravity disabled (kinematic) before exporting."
  else if trimIsEmpty instruction then
    .error "An instruction is required before exporting."
  else
    .ok ⟨exportableAssets.map mkUsdBlock,
         ⟨1, exportableAssets.map fun a =>
            ⟨a.id, a.name, a.mainFile, a.position, a.rotation, a.scale, a.disableGravity⟩⟩,
         mkPoseDoc assets savedConditions instruction⟩

/-! ## Bundle codec — import side (`src/io/importScene.ts`)

`JSON.parse` is a JS runtime builtin (external to this code); a JSON file in
the archive is therefore modelled by its parse outcome: `none` when parsing
(or reading) throws, `some v` when it yields `v`.  The geometry loader is the
external collaborator of spec §6 and is a parameter; so is the regex-based
`parseUsdaTransforms` (a total JS function whose output values no claim
depends on). -/

/-- `AssetConfig` from `importScene.ts` lines 6-14 (`disableGravity` is
optional in the JSON, hence `Option`). -/
structure AssetConfig where
  id : String
  name : String
  mainFile : String
  position : Vec3
  rotation : Vec3
  scale : Vec3
  disableGravity : Option Bool

/-- `SceneConfig` from `importScene.ts` lines 16-19. -/
structure SceneConfig where
  version : ℕ
  assets : List AssetConfig

/-- `InitialConditionsFile` from `importScene.ts` lines 21-28: an optional
instruction and a list of pose records mapping names to 7-tuples. -/
structure ICFile where
  instruction : Option String
  poses : List (List (String × List ℝ))

/-- The unpacked archive: each fixed-name JSON file is either absent or
present with its parse outcome; `scene.usda` is a text file; `assetFolders`
are the top-level folder names discovered under `assets/`. -/
structure ZipModel where
  sceneJson : Option (Option SceneConfig)
  sceneUsda : Option String
  assetFolders : List String
  initialConditions : Option (Option ICFile)

/-- `UsdTransform` from `importScene.ts` lines 156-162. -/
structure UsdTransform where
  translate : Vec3
  orient : Option Quat
  rotate : Option Vec3
  scale3 : Vec3
  kinematic : Bool

/-- `ImportResult` from `importScene.ts` lines 30-34. -/
structure ImportResult where
  assets : List LoadedAsset
  savedConditions : List SavedCondition
  instruction : String

/-- `loadAssetFromZip` (lines 316-348): collect the files under
`assets/<name>/` and hand them to the external loader; `null` when the folder
is empty or the loader fails (the loader parameter covers both). -/
def loadAssetFromZip (zip : ZipModel) (assetName : String)
    (loader : String → Option LoadedAsset) : Option LoadedAsset :=
  if zip.assetFolders.contains assetName then loader assetName else none

/-- `importFromSceneJson` (lines 118-154): for each manifest entry, load the
asset and apply the saved raw live-frame transform;
`disableGravity := assetConfig.disableGravity || false`. -/
def importFromSceneJson (zip : ZipModel) (loader : String → Option LoadedAsset)
    (config : SceneConfig) : List LoadedAsset :=
  config.assets.filterMap fun c =>
    (loadAssetFromZip zip c.name loader).map fun asset =>
      { asset with
        position := c.position
        rotation := ⟨c.rotation.x, c.rotation.y, c.rotation.z⟩
        scale := c.scale
        disableGravity := c.disableGravity.getD false }

/-- `importFromFolderStructure` (lines 164-244): parse `scene.usda` when
present, discover asset folders under `assets/`, and for each loaded asset
apply the transform of its sanitized name if one was parsed: export→live
position `(x, z, -y)`, quaternion `(qx, qz, -qy, qw)` preferred over the
legacy Euler `(rx, rz, -ry)` in degrees, permuted scale `(sx, sz, sy)`, and
the kinematic flag. -/
noncomputable def importFromFolderStructure (zip : ZipModel)
    (loader : String → Option LoadedAsset)
    (usdaParse : String → List (String × UsdTransform)) : List LoadedAsset :=
  let transforms := match zip.sceneUsda with
    | some txt => usdaParse txt
    | none => []
  zip.assetFolders.filterMap fun assetName =>
    (loadAssetFromZip zip assetName loader).map fun asset =>
      let usdName := sanitizeName assetName
      match transforms.find? fun p => p.1 == usdName with
      | some (_, t) =>
          let a1 :=
            { asset with
              position := posExportToLive t.translate
              scale := ⟨t.scale3.x, t.scale3.z, t.scale3.y⟩
              disableGravity := t.kinematic }
          match t.orient with
          | some q => { a1 with quaternion := ⟨q.x, q.z, -q.y, q.w⟩ }
          | none =>
            match t.rotate with
            | some r =>
                { a1 with
                  rotation :=
                    ⟨r.x * (Real.pi / 180), r.z * (Real.pi / 180),
                     -r.y * (Real.pi / 180)⟩ }
            | none => a1
      | none => asset

/-- `loadInitialConditions` (lines 59-116): absent file gives
`([], "")`; a present file whose read or parse throws is caught and likewise
gives `([], "")`; otherwise each pose record becomes a saved condition of
the matched assets (unmatched sanitized names are skipped, empty records are
dropped), converting each 7-tuple back to the live frame; the instruction is
`data.instruction || ""`.  A JS out-of-range tuple read (`undefined`) is
modelled as `0` — no claim exercises short tuples. -/
def loadInitialConditions (zip : ZipModel) (assets : List LoadedAsset) :
    List SavedCondition × String :=
  match zip.initialConditions with
  | none => ([], "")
  | some none => ([], "")
  | some (some data) =>
      let conds := data.poses.filterMap fun poseData =>
        let poses := poseData.filterMap fun nv =>
          (assets.find? fun a => sanitizeName a.name == nv.1).map fun asset =>
            (asset.id,
             SavedPose.mk
               ⟨nv.2[0]?.getD 0, nv.2[2]?.getD 0, -(nv.2[1]?.getD 0)⟩
               ⟨nv.2[3]?.getD 0, nv.2[5]?.getD 0, -(nv.2[4]?.getD 0), nv.2[6]?.getD 0⟩)
        if poses.isEmpty then none else some ⟨poses⟩
      (conds, data.instruction.getD "")

/-- `importScene` (lines 36-57): when `scene.json` is present it is the
authoritative path and a parse failure propagates (nothing catches the
`JSON.parse` throw inside `importFromSceneJson`) — the import fails; when
it is absent the legacy folder-structure path runs; either way
`loadInitialConditions` then supplies the saved conditions and instruction. -/
noncomputable def importScene (zip : ZipModel)
    (loader : String → Option LoadedAsset)
    (usdaParse : String → List (String × UsdTransform)) :
    Except String ImportResult :=
  match zip.sceneJson with
  | some none => .error "Unexpected end of JSON input"
  | some (some config) =>
      let assets := importFromSceneJson zip loader config
      let lc := loadInitialConditions zip assets
      .ok ⟨assets, lc.1, lc.2⟩
  | none =>
      let assets := importFromFolderStructure zip loader usdaParse
      let lc := loadInitialConditions zip assets
      .ok ⟨assets, lc.1, lc.2⟩

/-! ### Concrete bundle-codec fixtures -/

/-- A static (gravity-disabled) exportable asset. -/
noncomputable def cStaticA : LoadedAsset :=
  ⟨"a1", "Box", "box.usd", false, false, true, ⟨1, 2, 3⟩, ⟨0, 0, 0⟩, ⟨1, 1, 1⟩,
   ⟨0, 0, 0, 1⟩⟩

/-- A dynamic asset at live position `(0.1, 0.2, 0.3)` (the spec example). -/
noncomputable def cDynamicA : LoadedAsset :=
  ⟨"a2", "Ball", "ball.usd", false, false, false, ⟨1 / 10, 1 / 5, 3 / 10⟩, ⟨0, 0, 0⟩,
   ⟨1, 1, 1⟩, ⟨0, 0, 0, 1⟩⟩

/-- An external loader that recognizes no payload. -/
def cLoaderNone : String → Option LoadedAsset := fun _ => none

/-- A usda parser recovering no block. -/
def cParseNone : String → List (String × UsdTransform) := fun _ => []

/-- An archive with no `scene.json` (legacy layout). -/
def cZipLegacy : ZipModel := ⟨none, some "legacy description text", ["Box"], none⟩

/-- An archive whose `scene.json` is present but not parsable as JSON. -/
def cZipBadManifest : ZipModel := ⟨some none, none, [], none⟩

/-- An archive whose `initial_conditions.json` is present but unreadable. -/
def cZipBadIC : ZipModel := ⟨none, none, [], some none⟩

/-! ## Lemmas -/

/-! ### Loop lemmas -/

lemma placeLoop_placed_acceptCond (sb : SpawnBounds) (a : PlaceAsset) (rng : ℕ → ℝ)
    (placed : List Box3) :
    ∀ n i, (placeLoop sb a rng placed n i).placed = true →
      acceptCond placed sb a (placeLoop sb a rng placed n i).att := by
  intro n
  induction n with
  | zero =>
      intro i h
      by_cases hc : acceptCond placed sb a (attemptAt sb a rng i)
      · simp [placeLoop, hc]
      · simp [placeLoop, hc] at h
  | succ n ih =>
      intro i h
      by_cases hc : acceptCond placed sb a (attemptAt sb a rng i)
      · simp [placeLoop, hc]
      · simp only [placeLoop, if_neg hc] at h ⊢
        exact ih (i + draws sb a) h

lemma acceptCond_no_collision {placed : List Box3} {sb : SpawnBounds} {a : PlaceAsset}
    {t : Attempt} (h : acceptCond placed sb a t) : ¬hasCollision placed t.box :=
  h.elim (fun h1 => h1.1) (fun h2 => h2.2)

lemma acceptCond_within {placed : List Box3} {sb : SpawnBounds} {a : PlaceAsset}
    {t : Attempt} (hfit : canFit sb a) (h : acceptCond placed sb a t) :
    isBoxWithinSpawnBounds sb t.box :=
  h.elim (fun h1 => h1.2) (fun h2 => absurd hfit h2.1)

lemma placeAsset_placed_acceptCond (sb : SpawnBounds) (a : PlaceAsset) (rng : ℕ → ℝ)
    (placed : List Box3) (i : ℕ) (h : (placeAsset sb a rng placed i).placed = true) :
    acceptCond placed sb a (placeAsset sb a rng placed i).att :=
  placeLoop_placed_acceptCond sb a rng placed _ i h

/-- Every outcome of a pass that was accepted within the budget avoids every
box that was already recorded before the pass started. -/
lemma runPass_avoids_initial (sb : SpawnBounds) (rng : ℕ → ℝ) :
    ∀ (gs : List PlaceAsset) (i : ℕ) (pbs : List Box3),
      ∀ o ∈ runPass sb rng gs i pbs, o.placed = true →
        ∀ pb ∈ pbs, ¬checkCollision o.att.box pb := by
  intro gs
  induction gs with
  | nil => intro i pbs o ho; simp [runPass] at ho
  | cons a rest ih =>
      intro i pbs o ho hplaced pb hpb
      rw [runPass] at ho
      rcases List.mem_cons.mp ho with h0 | hrest
      · subst h0
        have hacc := placeAsset_placed_acceptCond sb a rng pbs i hplaced
        intro hcol
        exact acceptCond_no_collision hacc ⟨pb, hpb, hcol⟩
      · exact ih _ _ o hrest hplaced pb (List.mem_append_left _ hpb)

/-- Two outcomes of a pass with the later one accepted within the budget have
non-intersecting boxes (the later acceptance checked against the earlier box). -/
lemma runPass_pairwise_disjoint (sb : SpawnBounds) (rng : ℕ → ℝ) :
    ∀ (gs : List PlaceAsset) (i : ℕ) (pbs : List Box3) (j k : ℕ)
      (oj ok : PlaceOutcome), j < k →
      (runPass sb rng gs i pbs)[j]? = some oj →
      (runPass sb rng gs i pbs)[k]? = some ok →
      ok.placed = true → ¬checkCollision ok.att.box oj.att.box := by
  intro gs
  induction gs with
  | nil => intro i pbs j k oj ok _ hj _ _; simp [runPass] at hj
  | cons a rest ih =>
      intro i pbs j k oj ok hjk hj hk hok
      rw [runPass] at hj hk
      cases k with
      | zero => exact absurd hjk (Nat.not_lt_zero j)
      | succ k' =>
          rw [List.getElem?_cons_succ] at hk
          cases j with
          | zero =>
              rw [List.getElem?_cons_zero] at hj
              have hoj : oj = placeAsset sb a rng pbs i := by
                simpa using hj.symm
              subst hoj
              exact runPass_avoids_initial sb rng rest _ _ ok (List.getElem?_mem hk) hok
                _ (List.mem_append_right _ (List.mem_singleton.mpr rfl))
          | succ j' =>
              rw [List.getElem?_cons_succ] at hj
              exact ih _ _ j' k' oj ok (Nat.lt_of_succ_lt_succ hjk) hj hk hok

/-- The `k`-th outcome of a pass is a `placeAsset` run of the `k`-th asset. -/
lemma runPass_get_eq_placeAsset (sb : SpawnBounds) (rng : ℕ → ℝ) :
    ∀ (gs : List PlaceAsset) (i : ℕ) (pbs : List Box3) (k : ℕ) (a : PlaceAsset),
      gs[k]? = some a →
      ∃ i' pbs', (runPass sb rng gs i pbs)[k]? = some (placeAsset sb a rng pbs' i') := by
  intro gs
  induction gs with
  | nil => intro i pbs k a ha; simp at ha
  | cons b rest ih =>
      intro i pbs k a ha
      rw [runPass]
      cases k with
      | zero =>
          rw [List.getElem?_cons_zero] at ha
          obtain rfl : b = a := by simpa using ha
          exact ⟨i, pbs, List.getElem?_cons_zero⟩
      | succ k' =>
          rw [List.getElem?_cons_succ] at ha
          obtain ⟨i', pbs', h⟩ := ih _ _ k' a ha
          exact ⟨i', pbs', by rw [List.getElem?_cons_succ]; exact h⟩

lemma localSize_cAssetUnit : localSize cAssetUnit = ⟨1 / 5, 1 / 5, 1 / 5⟩ := by
  simp only [localSize, cAssetUnit, cGeomUnit, Vec3.hadamard, Vec3.absVec]
  norm_num

lemma localSize_cAssetOffset : localSize cAssetOffset = ⟨1 / 5, 1 / 5, 1 / 5⟩ := by
  simp only [localSize, cAssetOffset, cGeomOffset, Vec3.hadamard, Vec3.absVec]
  norm_num

lemma maxHorizontalExtent_cAssetUnit : maxHorizontalExtent cAssetUnit = 1 / 10 := by
  rw [maxHorizontalExtent, localSize_cAssetUnit]
  norm_num

lemma verticalExtent_cAssetUnit : verticalExtent cAssetUnit = 1 / 10 := by
  rw [verticalExtent, localSize_cAssetUnit]
  norm_num

lemma maxHorizontalExtent_cAssetOffset : maxHorizontalExtent cAssetOffset = 1 / 10 := by
  rw [maxHorizontalExtent, localSize_cAssetOffset]
  norm_num

lemma verticalExtent_cAssetOffset : verticalExtent cAssetOffset = 1 / 10 := by
  rw [verticalExtent, localSize_cAssetOffset]
  norm_num

lemma canFit_cB_cAssetUnit : canFit cB cAssetUnit := by
  simp only [canFit, validMinX, validMaxX, validMinY, validMaxY, validMinZ, validMaxZ,
    maxHorizontalExtent_cAssetUnit, verticalExtent_cAssetUnit, cB]
  norm_num

lemma canFit_cB_cAssetOffset : canFit cB cAssetOffset := by
  simp only [canFit, validMinX, validMaxX, validMinY, validMaxY, validMinZ, validMaxZ,
    maxHorizontalExtent_cAssetOffset, verticalExtent_cAssetOffset, cB]
  norm_num

lemma not_canFit_cBFlat_cAssetUnit : ¬canFit cBFlat cAssetUnit := by
  simp only [canFit, validMinZ, validMaxZ, verticalExtent_cAssetUnit, cBFlat]
  intro h
  have := h.2.2
  norm_num at this

lemma attemptAt_pos_of_not_canFit {sb : SpawnBounds} {a : PlaceAsset}
    (h : ¬canFit sb a) (rng : ℕ → ℝ) (i : ℕ) :
    (attemptAt sb a rng i).pos = centerPos sb := by
  rw [attemptAt, if_neg h]

lemma attemptAt_pos_of_canFit {sb : SpawnBounds} {a : PlaceAsset}
    (h : canFit sb a) (rng : ℕ → ℝ) (i : ℕ) :
    (attemptAt sb a rng i).pos =
      ⟨validMinX sb a + rng i * (validMaxX sb a - validMinX sb a),
       validMinZ sb a + rng (i + 1) * (validMaxZ sb a - validMinZ sb a),
       -(validMinY sb a + rng (i + 2) * (validMaxY sb a - validMinY sb a))⟩ := by
  rw [attemptAt, if_pos h]

lemma eulerMat_zero : eulerMat ⟨0, 0, 0⟩ = ⟨1, 0, 0, 0, 1, 0, 0, 0, 1⟩ := by
  simp only [eulerMat, rotXMat, rotYMat, rotZMat, Mat3.mul, Real.cos_zero, Real.sin_zero]
  norm_num

lemma attempt_cAssetOffset (i : ℕ) :
    attemptAt cB cAssetOffset cRngZero i = ⟨⟨1 / 10, 1 / 10, -(1 / 10)⟩, 0, cBadBox⟩ := by
  rw [attemptAt, if_pos canFit_cB_cAssetOffset]
  simp only [cRngZero, zero_mul, setFromObject, eulerMat_zero, Mat3.mulVec, Mat3.absEntries,
    Vec3.hadamard, Vec3.absVec, Vec3.smul, Vec3.add, Vec3.sub, validMinX, validMaxX,
    validMinY, validMaxY, validMinZ, validMaxZ, maxHorizontalExtent_cAssetOffset,
    verticalExtent_cAssetOffset, cB, cAssetOffset, cGeomOffset, cBadBox]
  norm_num [maxHorizontalExtent, verticalExtent, localSize, Vec3.hadamard, Vec3.absVec,
    max_self, abs_of_nonneg]

lemma not_within_cBadBox : ¬isBoxWithinSpawnBounds cB cBadBox := by
  intro h
  have := h.2.1
  simp only [cBadBox, cB] at this
  norm_num at this

lemma not_accept_cAssetOffset (i : ℕ) :
    ¬acceptCond [] cB cAssetOffset (attemptAt cB cAssetOffset cRngZero i) := by
  rw [attempt_cAssetOffset]
  rintro (⟨-, hw⟩ | ⟨hnf, -⟩)
  · exact not_within_cBadBox hw
  · exact hnf canFit_cB_cAssetOffset

lemma placeLoop_cAssetOffset (n : ℕ) :
    ∀ i, (placeLoop cB cAssetOffset cRngZero [] n i).placed = false ∧
      (placeLoop cB cAssetOffset cRngZero [] n i).att.box = cBadBox := by
  induction n with
  | zero =>
      intro i
      simp only [placeLoop]
      rw [if_neg (not_accept_cAssetOffset i)]
      exact ⟨rfl, by rw [attempt_cAssetOffset]⟩
  | succ n ih =>
      intro i
      simp only [placeLoop]
      rw [if_neg (not_accept_cAssetOffset i)]
      exact ih _

lemma eulerMat_pi : eulerMat ⟨0, Real.pi, 0⟩ = ⟨-1, 0, 0, 0, 1, 0, 0, 0, -1⟩ := by
  simp only [eulerMat, rotXMat, rotYMat, rotZMat, Mat3.mul, Real.cos_zero, Real.sin_zero,
    Real.cos_pi, Real.sin_pi]
  norm_num

lemma draws_cAssetUnit : draws cB cAssetUnit = 4 := by
  rw [draws, if_pos canFit_cB_cAssetUnit]

lemma attempt_unit_rngZero (i : ℕ) :
    attemptAt cB cAssetUnit cRngZero i = ⟨⟨1 / 10, 1 / 10, -(1 / 10)⟩, 0, cGoodBox⟩ := by
  rw [attemptAt, if_pos canFit_cB_cAssetUnit]
  simp only [cRngZero, zero_mul, setFromObject, eulerMat_zero, Mat3.mulVec, Mat3.absEntries,
    Vec3.hadamard, Vec3.absVec, Vec3.smul, Vec3.add, Vec3.sub, validMinX, validMaxX,
    validMinY, validMaxY, validMinZ, validMaxZ, maxHorizontalExtent_cAssetUnit,
    verticalExtent_cAssetUnit, cB, cAssetUnit, cGeomUnit, cGoodBox]
  norm_num [maxHorizontalExtent, verticalExtent, localSize, Vec3.hadamard, Vec3.absVec,
    max_self, abs_of_nonneg]


lemma attempt_unit_split0 :
    attemptAt cB cAssetUnit cRngSplit 0 = ⟨⟨1 / 10, 1 / 10, -(1 / 10)⟩, 0, cGoodBox⟩ := by
  rw [attemptAt, if_pos canFit_cB_cAssetUnit]
  simp only [cRngSplit]
  norm_num [setFromObject, eulerMat_zero, Mat3.mulVec, Mat3.absEntries,
    Vec3.hadamard, Vec3.absVec, Vec3.smul, Vec3.add, Vec3.sub, validMinX, validMaxX,
    validMinY, validMaxY, validMinZ, validMaxZ, maxHorizontalExtent, verticalExtent,
    localSize, max_self, cB, cAssetUnit, cGeomUnit, cGoodBox, abs_of_nonneg]

lemma half_two_pi : (1 / 2 : ℝ) * (2 * Real.pi) = Real.pi := by ring

lemma attempt_unit_split4 :
    attemptAt cB cAssetUnit cRngSplit 4 = ⟨⟨1 / 2, 1 / 2, -(1 / 2)⟩, Real.pi, cGoodBox2⟩ := by
  rw [attemptAt, if_pos canFit_cB_cAssetUnit]
  simp only [cRngSplit]
  norm_num [half_two_pi, setFromObject, eulerMat_pi, Mat3.mulVec, Mat3.absEntries,
    Vec3.hadamard, Vec3.absVec, Vec3.smul, Vec3.add, Vec3.sub, validMinX, validMaxX,
    validMinY, validMaxY, validMinZ, validMaxZ, maxHorizontalExtent, verticalExtent,
    localSize, max_self, cB, cAssetUnit, cGeomUnit, cGoodBox2, abs_of_nonneg]

lemma within_cGoodBox : isBoxWithinSpawnBounds cB cGoodBox := by
  simp only [isBoxWithinSpawnBounds, cGoodBox, cB]
  norm_num

lemma within_cGoodBox2 : isBoxWithinSpawnBounds cB cGoodBox2 := by
  simp only [isBoxWithinSpawnBounds, cGoodBox2, cB]
  norm_num

lemma accept_unit_zero :
    acceptCond [] cB cAssetUnit (attemptAt cB cAssetUnit cRngZero 0) := by
  rw [attempt_unit_rngZero]
  exact Or.inl ⟨by rintro ⟨pb, hpb, -⟩; simp at hpb, within_cGoodBox⟩

lemma accept_unit_split0 :
    acceptCond [] cB cAssetUnit (attemptAt cB cAssetUnit cRngSplit 0) := by
  rw [attempt_unit_split0]
  exact Or.inl ⟨by rintro ⟨pb, hpb, -⟩; simp at hpb, within_cGoodBox⟩

lemma accept_unit_split4 :
    acceptCond [cGoodBox] cB cAssetUnit (attemptAt cB cAssetUnit cRngSplit 4) := by
  rw [attempt_unit_split4]
  refine Or.inl ⟨?_, within_cGoodBox2⟩
  rintro ⟨pb, hpb, hc⟩
  rw [List.mem_singleton] at hpb
  subst hpb
  exact hc (Or.inl (by norm_num [cGoodBox, cGoodBox2]))

lemma placeAsset_unit_rngZero :
    placeAsset cB cAssetUnit cRngZero [] 0 =
      ⟨true, ⟨⟨1 / 10, 1 / 10, -(1 / 10)⟩, 0, cGoodBox⟩, 4⟩ := by
  rw [placeAsset, show maxAttempts - 1 = 98 + 1 from rfl]
  simp only [placeLoop]
  rw [if_pos accept_unit_zero, attempt_unit_rngZero, draws_cAssetUnit]

lemma placeAsset_unit_split0 :
    placeAsset cB cAssetUnit cRngSplit [] 0 =
      ⟨true, ⟨⟨1 / 10, 1 / 10, -(1 / 10)⟩, 0, cGoodBox⟩, 4⟩ := by
  rw [placeAsset, show maxAttempts - 1 = 98 + 1 from rfl]
  simp only [placeLoop]
  rw [if_pos accept_unit_split0, attempt_unit_split0, draws_cAssetUnit]

lemma placeAsset_unit_split4 :
    (placeAsset cB cAssetUnit cRngSplit [cGoodBox] 4).placed = true := by
  rw [placeAsset, show maxAttempts - 1 = 98 + 1 from rfl]
  simp only [placeLoop]
  rw [if_pos accept_unit_split4]

end ComposeEnv

namespace ComposeEnv

/-- C1: the live→export position map sends `(x, y, z)` to `(x, -z, y)`, the
export→live map sends `(x, y, z)` to `(x, z, -y)`, and the two maps are exact
inverses of each other in either order, for every real triple. -/
theorem position_frame_round_trip (v : Vec3) :
    posLiveToExport v = ⟨v.x, -v.z, v.y⟩ ∧
    posExportToLive v = ⟨v.x, v.z, -v.y⟩ ∧
    posExportToLive (posLiveToExport v) = v ∧
    posLiveToExport (posExportToLive v) = v := by
  refine ⟨rfl, rfl, ?_, ?_⟩ <;>
    simp [posLiveToExport, posExportToLive]

/-- C4: for any two movable objects of the same randomization pass whose
placements were both accepted within the 100-attempt retry budget, the
axis-aligned world bounding boxes they end the pass with do not intersect. -/
theorem placement_non_overlap (sb : SpawnBounds) (rng : ℕ → ℝ) (gs : List PlaceAsset)
    (j k : ℕ) (oj ok : PlaceOutcome) (hjk : j < k)
    (hj : (runPass sb rng gs 0 [])[j]? = some oj)
    (hk : (runPass sb rng gs 0 [])[k]? = some ok)
    (_hoj : oj.placed = true) (hok : ok.placed = true) :
    ¬checkCollision ok.att.box oj.att.box :=
  runPass_pairwise_disjoint sb rng gs 0 [] j k oj ok hjk hj hk hok

/-- C3 (amended): a movable object whose shrunken sampling range is
non-degenerate ends the pass with a box fully inside the original spawn
volume *provided its placement was accepted within the 100-attempt retry
budget*; on budget exhaustion the last attempted transform is kept and may
lie outside (see the counterexample). -/
theorem placement_containment (sb : SpawnBounds) (rng : ℕ → ℝ) (gs : List PlaceAsset)
    (k : ℕ) (a : PlaceAsset) (o : PlaceOutcome)
    (ha : gs[k]? = some a) (ho : (runPass sb rng gs 0 [])[k]? = some o)
    (hfit : canFit sb a) (hplaced : o.placed = true) :
    isBoxWithinSpawnBounds sb o.att.box := by
  obtain ⟨i', pbs', h⟩ := runPass_get_eq_placeAsset sb rng gs 0 [] k a ha
  rw [ho] at h
  have ho' : placeAsset sb a rng pbs' i' = o := by simpa using h.symm
  subst ho'
  exact acceptCond_within hfit (placeAsset_placed_acceptCond sb a rng pbs' i' hplaced)

/-- Witness for C3: a concrete single-object pass whose first attempt is
accepted; the theorem yields containment of its final box. -/
theorem placement_containment_witness :
    isBoxWithinSpawnBounds cB (placeAsset cB cAssetUnit cRngZero [] 0).att.box :=
  placement_containment cB cRngZero [cAssetUnit] 0 cAssetUnit
    (placeAsset cB cAssetUnit cRngZero [] 0) rfl
    (by simp only [runPass, List.getElem?_cons_zero])
    canFit_cB_cAssetUnit
    (by rw [placeAsset_unit_rngZero])

/-- Witness for C4: a concrete two-object pass where both objects are accepted
within the budget; the theorem yields that their final boxes do not collide. -/
theorem placement_non_overlap_witness :
    ¬checkCollision
      (placeAsset cB cAssetUnit cRngSplit
        ([] ++ [(placeAsset cB cAssetUnit cRngSplit [] 0).att.box])
        (placeAsset cB cAssetUnit cRngSplit [] 0).nextIdx).att.box
      (placeAsset cB cAssetUnit cRngSplit [] 0).att.box :=
  placement_non_overlap cB cRngSplit [cAssetUnit, cAssetUnit] 0 1
    (placeAsset cB cAssetUnit cRngSplit [] 0)
    (placeAsset cB cAssetUnit cRngSplit
      ([] ++ [(placeAsset cB cAssetUnit cRngSplit [] 0).att.box])
      (placeAsset cB cAssetUnit cRngSplit [] 0).nextIdx)
    (by norm_num)
    (by simp only [runPass, List.getElem?_cons_zero])
    (by simp only [runPass, List.getElem?_cons_succ, List.getElem?_cons_zero])
    (by rw [placeAsset_unit_split0])
    (by
      rw [placeAsset_unit_split0]
      simp only [List.nil_append]
      exact placeAsset_unit_split4)

/-- C10: `getAssetLocalSize` measures the bounding-box size with the position
and rotation temporarily reset to zero, and the object's position and rotation
after the call equal their values before the call (indeed the whole object
state is unchanged); the measured value is exactly the `localSize` the
placement pass uses. -/
theorem getAssetLocalSize_spec (o : Object3D) :
    (getAssetLocalSize o).2 = o ∧
    (getAssetLocalSize o).1 =
      boxSize (setFromObject o.geom o.scale ⟨0, 0, 0⟩ ⟨0, 0, 0⟩) ∧
    (getAssetLocalSize o).1 = localSize ⟨o.geom, o.scale⟩ := by
  refine ⟨rfl, rfl, ?_⟩
  simp only [getAssetLocalSize, boxSize, setFromObject, eulerMat_zero, Mat3.mulVec,
    Mat3.absEntries, Vec3.hadamard, Vec3.absVec, Vec3.smul, Vec3.add, Vec3.sub,
    localSize, abs_one, abs_zero]
  simp only [Vec3.mk.injEq]
  refine ⟨by ring, by ring, by ring⟩

/-- C8: when at least one movable object exists, `acceptRandomization` appends
exactly one snapshot — the current position and orientation of every movable
object — to the end of the saved-conditions history; every previously stored
entry is unchanged at its index, and `clearSavedConditions` is the only other
mutation, a wholesale reset to the empty history. -/
theorem accept_randomization_appends (s : SceneModel)
    (h : (dynamicAssets s.assets).length > 0) :
    (acceptRandomization s).savedConditions =
        s.savedConditions ++ [⟨currentPoses s.assets⟩] ∧
    (acceptRandomization s).savedConditions.length = s.savedConditions.length + 1 ∧
    (∀ k, k < s.savedConditions.length →
      (acceptRandomization s).savedConditions[k]? = s.savedConditions[k]?) ∧
    (clearSavedConditions s).savedConditions = [] := by
  refine ⟨?_, ?_, ?_, rfl⟩
  · simp [acceptRandomization, if_pos h]
  · simp [acceptRandomization, if_pos h]
  · intro k hk
    simp [acceptRandomization, if_pos h, List.getElem?_append_left hk]

/-- Witness for C8: a concrete scene with one movable asset and one previously
saved condition; accepting appends exactly the snapshot of its current pose. -/
theorem accept_randomization_appends_witness :
    (acceptRandomization cSceneW).savedConditions =
      cSceneW.savedConditions ++ [⟨currentPoses cSceneW.assets⟩] :=
  (accept_randomization_appends cSceneW
    (by norm_num [dynamicAssets, cSceneW, cSceneAssetW])).1

/-- C6 (amended): an object is marked unable to fit — the volume center
becoming the only candidate position — exactly when its reduced sampling
range satisfies `min ≥ max` on some axis.  A zero-width reduced range
(`min = max`) therefore also takes the center fallback: the code tests
`validMin < validMax` strictly, so only strictly non-degenerate ranges are
randomly sampled. -/
theorem fit_fallback (sb : SpawnBounds) (a : PlaceAsset) :
    (¬canFit sb a ↔
      validMaxX sb a ≤ validMinX sb a ∨ validMaxY sb a ≤ validMinY sb a ∨
        validMaxZ sb a ≤ validMinZ sb a) ∧
    (∀ rng : ℕ → ℝ, ∀ i : ℕ, ¬canFit sb a →
      (attemptAt sb a rng i).pos = centerPos sb) ∧
    (∀ rng : ℕ → ℝ, ∀ i : ℕ, canFit sb a →
      (attemptAt sb a rng i).pos =
        ⟨validMinX sb a + rng i * (validMaxX sb a - validMinX sb a),
         validMinZ sb a + rng (i + 1) * (validMaxZ sb a - validMinZ sb a),
         -(validMinY sb a + rng (i + 2) * (validMaxY sb a - validMinY sb a))⟩) := by
  refine ⟨?_, fun rng i h => attemptAt_pos_of_not_canFit h rng i,
    fun rng i h => attemptAt_pos_of_canFit h rng i⟩
  simp only [canFit, not_and_or, not_lt]

/-- Witness for C6: on a concrete volume whose reduced vertical range is
zero-width, the attempted candidate is the volume center. -/
theorem fit_fallback_witness :
    (attemptAt cBFlat cAssetUnit cRngZero 0).pos = centerPos cBFlat :=
  (fit_fallback cBFlat cAssetUnit).2.1 cRngZero 0 not_canFit_cBFlat_cAssetUnit

/-- Counterexample to C3 as stated: a concrete single-object pass in which the
shrunken sampling range is non-degenerate (the object can fit), yet every one
of the 100 attempts fails the containment check — the mesh pivot is far from
its geometry, so the sampled positions never put the box inside the volume —
and the box the object ends the pass with lies outside the spawn volume. -/
theorem placement_containment_counterexample :
    canFit cB cAssetOffset ∧
    Option.map (fun o : PlaceOutcome => (o.placed, o.att.box))
        (runPass cB cRngZero [cAssetOffset] 0 []).head? = some (false, cBadBox) ∧
    ¬isBoxWithinSpawnBounds cB cBadBox := by
  refine ⟨canFit_cB_cAssetOffset, ?_, not_within_cBadBox⟩
  simp only [runPass, placeAsset, List.head?_cons, Option.map_some',
    (placeLoop_cAssetOffset (maxAttempts - 1) 0).1,
    (placeLoop_cAssetOffset (maxAttempts - 1) 0).2]

/-- C2: export fails — a descriptive error, no archive — whenever the
instruction is empty or whitespace-only, or no exportable asset has the
static (`disableGravity`) flag; a scene meeting both preconditions exports
successfully (an archive is produced). -/
theorem export_preconditions (assets : List LoadedAsset)
    (conds : List SavedCondition) (instruction : String) :
    (trimIsEmpty instruction = true →
      ∃ msg, exportScene assets conds instruction = .error msg) ∧
    ((assets.filter fun a => !a.excludeFromExport).any (fun a => a.disableGravity) = false →
      ∃ msg, exportScene assets conds instruction = .error msg) ∧
    (trimIsEmpty instruction = false →
      (assets.filter fun a => !a.excludeFromExport).any (fun a => a.disableGravity) = true →
      ∃ b, exportScene assets conds instruction = .ok b) := by
  refine ⟨?_, ?_, ?_⟩
  · intro h
    cases hk : (assets.filter fun a => !a.excludeFromExport).any fun a => a.disableGravity
    · exact ⟨_, by simp only [exportScene, hk, Bool.not_false, if_pos]; rfl⟩
    · exact ⟨_, by simp only [exportScene, hk, Bool.not_true, Bool.false_eq_true,
        if_false, h, if_pos]; rfl⟩
  · intro hk
    exact ⟨_, by simp only [exportScene, hk, Bool.not_false, if_pos]; rfl⟩
  · intro h hk
    exact ⟨_, by simp only [exportScene, hk, Bool.not_true, Bool.false_eq_true,
      if_false, h, if_false]; rfl⟩

/-- Witness for C2: a whitespace-only instruction fails, a scene with no
static asset fails, and a scene with both preconditions met exports. -/
theorem export_preconditions_witness :
    (∃ msg, exportScene [cStaticA] [] "   " = .error msg) ∧
    (∃ msg, exportScene [cDynamicA] [] "pick up the box" = .error msg) ∧
    (∃ b, exportScene [cStaticA, cDynamicA] [] "pick up the box" = .ok b) :=
  ⟨(export_preconditions [cStaticA] [] "   ").1 (by rfl),
   (export_preconditions [cDynamicA] [] "pick up the box").2.1 (by rfl),
   (export_preconditions [cStaticA, cDynamicA] [] "pick up the box").2.2 (by rfl) (by rfl)⟩

/-- C5: with zero accepted conditions, a successful export emits a pose
document with exactly one entry — the current live pose of each dynamic
object, converted to the export frame — and carries the instruction. -/
theorem fallback_pose_document (assets : List LoadedAsset)
    (conds : List SavedCondition) (instruction : String) (b : Bundle)
    (hok : exportScene assets conds instruction = .ok b)
    (hconds : conds = [])
    (_hdyn : dynamicLoaded assets ≠ []) :
    b.poseDoc.poses.length = 1 ∧
    b.poseDoc.poses = [currentPoseEntry assets] ∧
    b.poseDoc.instruction = instruction := by
  subst hconds
  simp only [exportScene] at hok
  split_ifs at hok
  injection hok with hb
  subst hb
  simp [mkPoseDoc]

/-- Witness for C5: exporting the concrete scene with zero conditions and one
dynamic object at live `(0.1, 0.2, 0.3)` yields exactly the one entry
`[0.1, -0.3, 0.2, 0, 0, 0, 1]` for that object. -/
theorem fallback_pose_document_witness :
    ∃ b, exportScene [cStaticA, cDynamicA] [] "pick up the box" = .ok b ∧
      b.poseDoc.poses = [currentPoseEntry [cStaticA, cDynamicA]] ∧
      currentPoseEntry [cStaticA, cDynamicA] =
        [("Ball", [1 / 10, -(3 / 10), 1 / 5, 0, 0, 0, 1])] := by
  obtain ⟨b, hb⟩ :
      ∃ b, exportScene [cStaticA, cDynamicA] [] "pick up the box" = .ok b := ⟨_, rfl⟩
  refine ⟨b, hb, ?_, ?_⟩
  · exact (fallback_pose_document [cStaticA, cDynamicA] [] "pick up the box" b hb rfl
      (by simp [dynamicLoaded, cStaticA, cDynamicA])).2.1
  · have hs : ("Ball").map (fun c => if isUsdNameChar c then c else '_') = "Ball" := by
      rw [String.map_eq]; decide
    simp only [currentPoseEntry, dynamicLoaded, poseTuple, cStaticA, cDynamicA,
      List.filter, List.map, sanitizeName, hs]
    norm_num

/-- C7: a missing `scene.json` makes `importScene` fall back to the legacy
folder-structure parsing path and succeed; a `scene.json` that is present but
not parsable is a hard failure of the import. -/
theorem import_manifest_fallback (zip : ZipModel)
    (loader : String → Option LoadedAsset)
    (usdaParse : String → List (String × UsdTransform)) :
    (zip.sceneJson = none →
      importScene zip loader usdaParse =
        .ok ⟨importFromFolderStructure zip loader usdaParse,
             (loadInitialConditions zip (importFromFolderStructure zip loader usdaParse)).1,
             (loadInitialConditions zip (importFromFolderStructure zip loader usdaParse)).2⟩) ∧
    (zip.sceneJson = some none →
      ∃ msg, importScene zip loader usdaParse = .error msg) := by
  constructor
  · intro h
    simp only [importScene, h]
  · intro h
    exact ⟨_, by simp only [importScene, h]; rfl⟩

/-- Witness for C7: a concrete manifest-less archive imports successfully and
a concrete archive with an unparsable manifest fails. -/
theorem import_manifest_fallback_witness :
    (importScene cZipLegacy cLoaderNone cParseNone).isOk = true ∧
    (importScene cZipBadManifest cLoaderNone cParseNone).isOk = false := by
  constructor
  · rw [(import_manifest_fallback cZipLegacy cLoaderNone cParseNone).1 rfl]
    rfl
  · obtain ⟨msg, hm⟩ :=
      (import_manifest_fallback cZipBadManifest cLoaderNone cParseNone).2 rfl
    rw [hm]
    rfl

/-- C9: an `initial_conditions.json` that is present but unreadable or not
valid JSON does not fail the import: whenever the manifest rule lets
the import proceed, it succeeds with an empty saved-conditions list and an empty
instruction. -/
theorem initial_conditions_resilience (zip : ZipModel)
    (loader : String → Option LoadedAsset)
    (usdaParse : String → List (String × UsdTransform))
    (hic : zip.initialConditions = some none)
    (hmanifest : zip.sceneJson ≠ some none) :
    ∃ assets, importScene zip loader usdaParse = .ok ⟨assets, [], ""⟩ := by
  have hlc : ∀ assets, loadInitialConditions zip assets = ([], "") := fun assets => by
    simp only [loadInitialConditions, hic]
  match hsj : zip.sceneJson with
  | some none => exact absurd hsj hmanifest
  | some (some config) => exact ⟨_, by simp only [importScene, hsj, hlc]; rfl⟩
  | none => exact ⟨_, by simp only [importScene, hsj, hlc]; rfl⟩

/-- Witness for C9: a concrete archive whose `initial_conditions.json` cannot
be parsed still imports, with empty conditions and instruction. -/
theorem initial_conditions_resilience_witness :
    ∃ assets, importScene cZipBadIC cLoaderNone cParseNone = .ok ⟨assets, [], ""⟩ :=
  initial_conditions_resilience cZipBadIC cLoaderNone cParseNone rfl (by simp [cZipBadIC])

/-- Counterexample to C6 as stated: a concrete scene where no axis of the
reduced range is inverted (`min > max` holds nowhere — the vertical range is
zero-width, `min = max`), yet the object is marked unable to fit and samples
only the volume center instead of sampling randomly within the reduced
range. -/
theorem fit_zero_width_counterexample :
    ¬(validMinX cBFlat cAssetUnit > validMaxX cBFlat cAssetUnit) ∧
    ¬(validMinY cBFlat cAssetUnit > validMaxY cBFlat cAssetUnit) ∧
    ¬(validMinZ cBFlat cAssetUnit > validMaxZ cBFlat cAssetUnit) ∧
    ¬canFit cBFlat cAssetUnit ∧
    (attemptAt cBFlat cAssetUnit cRngZero 0).pos = centerPos cBFlat := by
  refine ⟨?_, ?_, ?_, not_canFit_cBFlat_cAssetUnit,
    attemptAt_pos_of_not_canFit not_canFit_cBFlat_cAssetUnit cRngZero 0⟩ <;>
  · simp only [validMinX, validMaxX, validMinY, validMaxY, validMinZ, validMaxZ,
      maxHorizontalExtent_cAssetUnit, verticalExtent_cAssetUnit, cBFlat]
    norm_num

end ComposeEnv
